import Mathlib

/-!
Verification of the evaluation-runner core of the `evaluate` repository
(`src/runner.rs`, `src/config.rs`, `src/errors.rs`).

Strings are shallowly embedded as lists of characters (`Str`).  Rust's
byte-oriented operations are modelled on the code-point level; all inputs
exercised by the claims are ASCII, where the two coincide.  `serde_json`
values are embedded as the inductive `Json`; `serde_json::Number` keeps the
source's distinction between integer literals (`PosInt`/`NegInt`) and
floating-point numbers (`Float`), with finite floats modelled as exact
rationals (every float produced by the claims' inputs is a small integer,
where the rational model is exact).  Network and clock effects of the
asynchronous runner are modelled as explicit oracle parameters.
-/

set_option maxRecDepth 10000

/-- Rust `&str` / `String`, modelled as a list of characters. -/
abbrev Str := List Char

/-- Convert a Lean string literal to the `Str` model. -/
def chars (s : String) : Str := s.data

/-- The left-brace character (written via its code point). -/
def lbraceChar : Char := Char.ofNat 123

/-- The right-brace character (written via its code point). -/
def rbraceChar : Char := Char.ofNat 125

/-- The backtick character (written via its code point). -/
def btickChar : Char := Char.ofNat 96

/-- Whitespace class of the Rust `regex` crate's `\s` and of `str::trim`,
restricted to ASCII: space, tab, newline, carriage return, vertical tab,
form feed (code points 32, 9, 10, 13, 11, 12). -/
def is_ws_char (c : Char) : Bool :=
  c.toNat = 32 || c.toNat = 9 || c.toNat = 10 || c.toNat = 13 ||
  c.toNat = 11 || c.toNat = 12

/-- Decimal digit class `\d` / `[0-9]`. -/
def is_digit_char (c : Char) : Bool :=
  48 ≤ c.toNat && c.toNat ≤ 57

/-- ASCII letter class `[A-Za-z]`. -/
def is_alpha_char (c : Char) : Bool :=
  (65 ≤ c.toNat && c.toNat ≤ 90) || (97 ≤ c.toNat && c.toNat ≤ 122)

/-- Word-character class of the `regex` crate's `\w`, restricted to ASCII:
letters, digits and underscore. -/
def is_word_char (c : Char) : Bool :=
  is_alpha_char c || is_digit_char c || c.toNat = 95

/-- Rust `str::starts_with`. -/
def str_starts_with : Str → Str → Bool
  | _, [] => true
  | [], _ :: _ => false
  | c :: cs, d :: ds => c = d && str_starts_with cs ds

/-- Rust `str::contains` (substring containment). -/
def str_contains : Str → Str → Bool
  | s, sub =>
    if str_starts_with s sub then true
    else match s with
      | [] => false
      | _ :: t => str_contains t sub

/-- Rust `str::to_lowercase`, modelled on ASCII letters. -/
def to_lower_str (s : Str) : Str := s.map Char.toLower

/-- Rust `str::trim`: strip whitespace from both ends. -/
def str_trim (s : Str) : Str :=
  ((s.dropWhile is_ws_char).reverse.dropWhile is_ws_char).reverse

/-- Rust `str::len` (UTF-8 byte length). -/
def utf8_len (s : Str) : Nat := (s.map Char.utf8Size).sum

/-- Rust `String` ordering (lexicographic by code point, matching the
byte-wise `Ord` used by `BTreeMap<String, _>`). -/
def str_lt : Str → Str → Bool
  | [], [] => false
  | [], _ :: _ => true
  | _ :: _, [] => false
  | a :: xs, b :: ys =>
    if a.val < b.val then true
    else if b.val < a.val then false
    else str_lt xs ys

/-- `serde_json::Number`: the source distinguishes integer literals
(`PosInt`/`NegInt`, unified here as `int`) from floating-point numbers
(`Float`, here an exact rational). `Number::from_f64` always produces the
float variant, and the derived equality never identifies an `int` with a
`float`. -/
inductive JNum where
  | int (i : Int)
  | float (q : ℚ)
deriving DecidableEq, Repr

/-- `serde_json::Value`.  Objects are the default `BTreeMap`: an
association list kept sorted by `str_lt` on keys. -/
inductive Json where
  | null
  | bool (b : Bool)
  | num (n : JNum)
  | str (s : Str)
  | arr (xs : List Json)
  | obj (fields : List (Str × Json))
deriving Repr

/-- `BTreeMap::insert`: keep keys sorted, a duplicate key replaces the old
value. -/
def map_insert (k : Str) (v : Json) : List (Str × Json) → List (Str × Json)
  | [] => [(k, v)]
  | (k2, v2) :: rest =>
    if k = k2 then (k, v) :: rest
    else if str_lt k k2 then (k, v) :: (k2, v2) :: rest
    else (k2, v2) :: map_insert k v rest

/-- `serde_json::Value::get(key)`: field lookup on objects, `None` on every
other value. -/
def json_get (v : Json) (key : Str) : Option Json :=
  match v with
  | .obj fields => fields.lookup key
  | _ => none

/-- `serde_json::Value::as_str`. -/
def json_as_str : Json → Option Str
  | .str s => some s
  | _ => none

example : str_contains (chars "hello world") (chars "lo w") = true := rfl
example : str_contains (chars "hello") (chars "z") = false := rfl
example : str_starts_with (chars "yes they do") (chars "yes") = true := rfl
example : str_trim (chars "  ab ") = chars "ab" := rfl
example : to_lower_str (chars "Verdict: PASS") = chars "verdict: pass" := rfl
example : map_insert (chars "name") .null (map_insert (chars "age") .null [])
    = [(chars "age", .null), (chars "name", .null)] := rfl

/-- JSON whitespace accepted by `serde_json`: space, tab, newline, carriage
return. -/
def is_json_ws (c : Char) : Bool :=
  c = ' ' || c = '\t' || c = '\n' || c = '\r'

/-- Skip JSON whitespace. -/
def skip_json_ws (s : Str) : Str := s.dropWhile is_json_ws

/-- Numeric value of a string of decimal digits. -/
def digits_to_nat (ds : Str) : Nat :=
  ds.foldl (fun acc c => acc * 10 + (c.toNat - 48)) 0

/-- Value of a hexadecimal digit. -/
def hex_digit_val (c : Char) : Option Nat :=
  if is_digit_char c then some (c.toNat - 48)
  else if 'a' ≤ c && c ≤ 'f' then some (c.toNat - 97 + 10)
  else if 'A' ≤ c && c ≤ 'F' then some (c.toNat - 65 + 10)
  else none

/-- A scalar Unicode code point (rejects surrogate range), as produced by a
`\u` escape after surrogate-pair combination. -/
def mk_unicode_char (n : Nat) : Option Char :=
  if n < 0xD800 then some (Char.ofNat n)
  else if 0xE000 ≤ n && n ≤ 0x10FFFF then some (Char.ofNat n)
  else none

/-- Parse exactly four hex digits. -/
def parse_hex4 (s : Str) : Option (Nat × Str) :=
  match s with
  | a :: b :: c :: d :: rest =>
    match hex_digit_val a, hex_digit_val b, hex_digit_val c, hex_digit_val d with
    | some va, some vb, some vc, some vd =>
      some (((va * 16 + vb) * 16 + vc) * 16 + vd, rest)
    | _, _, _, _ => none
  | _ => none

/-- Body of a JSON string literal (the position right after the opening
quote): returns the decoded contents and the remainder after the closing
quote.  Escapes follow `serde_json`: the simple escapes, and `\u` with
surrogate-pair combination (lone surrogates are rejected). -/
def parse_json_string : Nat → Str → Option (Str × Str)
  | 0, _ => none
  | fuel + 1, s =>
    match s with
    | [] => none
    | c :: rest =>
      if c = '"' then some ([], rest)
      else if c = '\\' then
        match rest with
        | [] => none
        | e :: rest2 =>
          let cont (ch : Char) (r : Str) : Option (Str × Str) :=
            (parse_json_string fuel r).map (fun p => (ch :: p.1, p.2))
          if e = '"' then cont '"' rest2
          else if e = '\\' then cont '\\' rest2
          else if e = '/' then cont '/' rest2
          else if e = 'b' then cont (Char.ofNat 8) rest2
          else if e = 'f' then cont (Char.ofNat 12) rest2
          else if e = 'n' then cont '\n' rest2
          else if e = 'r' then cont '\r' rest2
          else if e = 't' then cont '\t' rest2
          else if e = 'u' then
            match parse_hex4 rest2 with
            | none => none
            | some (v, rest3) =>
              if 0xD800 ≤ v && v ≤ 0xDBFF then
                match rest3 with
                | '\\' :: 'u' :: rest4 =>
                  match parse_hex4 rest4 with
                  | some (w, rest5) =>
                    if 0xDC00 ≤ w && w ≤ 0xDFFF then
                      match mk_unicode_char (0x10000 + (v - 0xD800) * 0x400 + (w - 0xDC00)) with
                      | some ch => cont ch rest5
                      | none => none
                    else none
                  | none => none
                | _ => none
              else
                match mk_unicode_char v with
                | some ch => cont ch rest3
                | none => none
          else none
      else if c.toNat < 32 then none
      else (parse_json_string fuel rest).map (fun p => (c :: p.1, p.2))

/-- `(10 : ℚ) ^ n`. -/
def pow10q (n : Nat) : ℚ := (10 : ℚ) ^ n

/-- JSON number literal per the JSON grammar, with `serde_json`'s
integer/float decision: a literal without fraction or exponent parses as an
integer when it fits `u64` (non-negative) or `i64` (negative) and otherwise
falls back to a float; a literal with fraction or exponent parses as a
float (modelled as the exact decimal rational). -/
def parse_json_number (s : Str) : Option (JNum × Str) :=
  let (neg, s1) : Bool × Str :=
    match s with
    | '-' :: r => (true, r)
    | _ => (false, s)
  match s1 with
  | [] => none
  | c :: _ =>
    if ¬ is_digit_char c then none
    else
      let (ipart, s2) : Str × Str :=
        if c = '0' then ([c], s1.drop 1)
        else (s1.takeWhile is_digit_char, s1.dropWhile is_digit_char)
      let fracRes : Option (Str × Str) :=
        match s2 with
        | '.' :: r =>
          let ds := r.takeWhile is_digit_char
          if ds = [] then none else some (ds, r.dropWhile is_digit_char)
        | _ => some ([], s2)
      match fracRes with
      | none => none
      | some (fpart, s3) =>
        let expRes : Option (Bool × Str × Str) :=
          match s3 with
          | e :: r =>
            if e = 'e' || e = 'E' then
              let (eneg, r1) : Bool × Str :=
                match r with
                | '-' :: r2 => (true, r2)
                | '+' :: r2 => (false, r2)
                | _ => (false, r)
              let ds := r1.takeWhile is_digit_char
              if ds = [] then none else some (eneg, ds, r1.dropWhile is_digit_char)
            else some (false, [], s3)
          | [] => some (false, [], s3)
        match expRes with
        | none => none
        | some (eneg, epart, rest) =>
          if fpart = [] ∧ epart = [] then
            let n : Int := digits_to_nat ipart
            let v : Int := if neg then -n else n
            if (¬ neg ∧ n < 2 ^ 64) ∨ (neg ∧ -(2 ^ 63) ≤ v) then
              some (.int v, rest)
            else some (.float (v : ℚ), rest)
          else
            let mant : ℚ := (digits_to_nat ipart : ℚ) +
              (digits_to_nat fpart : ℚ) / pow10q fpart.length
            let signed : ℚ := if neg then -mant else mant
            let scaled : ℚ :=
              if eneg then signed / pow10q (digits_to_nat epart)
              else signed * pow10q (digits_to_nat epart)
            some (.float scaled, rest)

mutual

/-- One JSON value starting at `s` (leading whitespace allowed); follows
`serde_json`'s recursive-descent parser.  `fuel` bounds recursion depth and
is chosen large enough by `serde_from_str`. -/
def parse_json_value : Nat → Str → Option (Json × Str)
  | 0, _ => none
  | fuel + 1, s =>
    let s1 := skip_json_ws s
    match s1 with
    | [] => none
    | c :: rest =>
      if c = 'n' then
        if str_starts_with rest (chars "ull") then some (.null, rest.drop 3) else none
      else if c = 't' then
        if str_starts_with rest (chars "rue") then some (.bool true, rest.drop 3) else none
      else if c = 'f' then
        if str_starts_with rest (chars "alse") then some (.bool false, rest.drop 4) else none
      else if c = '"' then
        (parse_json_string (rest.length + 1) rest).map (fun p => (.str p.1, p.2))
      else if c = '[' then
        let r1 := skip_json_ws rest
        match r1 with
        | ']' :: r2 => some (.arr [], r2)
        | _ => parse_json_array_items fuel r1 []
      else if c = lbraceChar then
        let r1 := skip_json_ws rest
        match r1 with
        | d :: r2 => if d = rbraceChar then some (.obj [], r2) else parse_json_object_items fuel r1 []
        | [] => none
      else
        (parse_json_number s1).map (fun p => (.num p.1, p.2))

/-- Comma-separated JSON array elements up to the closing bracket. -/
def parse_json_array_items : Nat → Str → List Json → Option (Json × Str)
  | 0, _, _ => none
  | fuel + 1, s, acc =>
    match parse_json_value fuel s with
    | none => none
    | some (v, r) =>
      let r1 := skip_json_ws r
      match r1 with
      | ',' :: r2 => parse_json_array_items fuel r2 (acc ++ [v])
      | ']' :: r2 => some (.arr (acc ++ [v]), r2)
      | _ => none

/-- Comma-separated JSON object members up to the closing brace; members
accumulate through `map_insert` (`BTreeMap`), so a duplicate key keeps the
last value. -/
def parse_json_object_items : Nat → Str → List (Str × Json) → Option (Json × Str)
  | 0, _, _ => none
  | fuel + 1, s, acc =>
    match skip_json_ws s with
    | '"' :: r =>
      match parse_json_string (r.length + 1) r with
      | none => none
      | some (key, r1) =>
        match skip_json_ws r1 with
        | ':' :: r2 =>
          match parse_json_value fuel r2 with
          | none => none
          | some (v, r3) =>
            let acc2 := map_insert key v acc
            match skip_json_ws r3 with
            | ',' :: r4 => parse_json_object_items fuel r4 acc2
            | d :: r4 =>
              if d = rbraceChar then some (.obj acc2, r4) else none
            | [] => none
        | _ => none
    | _ => none

end

/-- `serde_json::from_str::<Value>`: parse one JSON value and require only
whitespace to follow. -/
def serde_from_str (s : Str) : Option Json :=
  match parse_json_value (2 * s.length + 4) s with
  | some (j, rest) => if skip_json_ws rest = [] then some j else none
  | none => none

example : serde_from_str (chars "4") = some (.num (.int 4)) := rfl
example : serde_from_str (chars " -12 ") = some (.num (.int (-12))) := rfl
example : serde_from_str (chars "4 5") = none := rfl
example : serde_from_str (chars "true") = some (.bool true) := rfl
example : serde_from_str (chars "[1, 2]")
    = some (.arr [.num (.int 1), .num (.int 2)]) := rfl
example : serde_from_str (chars "2.5") = some (.num (.float (5 / 2))) := by
  show some (Json.num (JNum.float ((2 + 5 / pow10q 1) * pow10q 0))) = _
  norm_num [pow10q]
example : serde_from_str (chars "hello") = none := rfl

/-- A Rust `f64` as far as the runner observes it: a finite value (modelled
as an exact rational; decimal-to-binary rounding and overflow to infinity
are not modelled, which is exact for the small integers the claims
exercise) or a non-finite value (`inf`/`NaN` literals). -/
inductive F64 where
  | finite (q : ℚ)
  | nonfinite
deriving DecidableEq, Repr

/-- Rust `str::parse::<f64>()`: `[+-]?` then `inf`/`infinity`/`nan`
(case-insensitive) or `digits ['.' digits?] | '.' digits`, with an optional
`[eE][+-]?digits` exponent; the whole string must be consumed. -/
def parse_f64 (s : Str) : Option F64 :=
  let (neg, s1) : Bool × Str :=
    match s with
    | '-' :: r => (true, r)
    | '+' :: r => (false, r)
    | _ => (false, s)
  let low := to_lower_str s1
  if low = chars "inf" || low = chars "infinity" || low = chars "nan" then
    some .nonfinite
  else
    let d1 := s1.takeWhile is_digit_char
    let s2 := s1.dropWhile is_digit_char
    let fracRes : Option (Str × Str) :=
      match s2 with
      | '.' :: r => some (r.takeWhile is_digit_char, r.dropWhile is_digit_char)
      | _ => some ([], s2)
    match fracRes with
    | none => none
    | some (d2, s3) =>
      if d1 = [] ∧ d2 = [] then none
      else
        let expRes : Option (Bool × Str × Str) :=
          match s3 with
          | e :: r =>
            if e = 'e' || e = 'E' then
              let (eneg, r1) : Bool × Str :=
                match r with
                | '-' :: r2 => (true, r2)
                | '+' :: r2 => (false, r2)
                | _ => (false, r)
              let ds := r1.takeWhile is_digit_char
              if ds = [] then none else some (eneg, ds, r1.dropWhile is_digit_char)
            else none
          | [] => some (false, [], [])
        match expRes with
        | none => none
        | some (eneg, epart, rest) =>
          if rest ≠ [] then none
          else
            let mant : ℚ := (digits_to_nat d1 : ℚ) +
              (digits_to_nat d2 : ℚ) / pow10q d2.length
            let signed : ℚ := if neg then -mant else mant
            let scaled : ℚ :=
              if eneg then signed / pow10q (digits_to_nat epart)
              else signed * pow10q (digits_to_nat epart)
            some (.finite scaled)

/-- `serde_json::Number::from_f64`: `Some` exactly for finite values,
always producing the float variant. -/
def number_from_f64 : F64 → Option JNum
  | .finite q => some (.float q)
  | .nonfinite => none

example : parse_f64 (chars "25") = some (.finite 25) := by
  show some (F64.finite ((25 + 0 / pow10q 0) * pow10q 0)) = _
  norm_num [pow10q]
example : parse_f64 (chars "John") = none := rfl
example : parse_f64 (chars "2.5.1") = none := rfl
example : parse_f64 (chars "-3.5") = some (.finite (-(7 / 2))) := by
  show some (F64.finite (-(3 + 5 / pow10q 1) * pow10q 0)) = _
  norm_num [pow10q]
example : parse_f64 (chars "inf") = some .nonfinite := rfl

/-- `extract_boolean` (`src/runner.rs`): lowercase, trim, then test in
order: starts with "yes" / contains "answer is yes" / equals "true" for
`true`; starts with "no" / contains "answer is no" / equals "false" for
`false`; otherwise absent. -/
def extract_boolean (text : Str) : Option Bool :=
  let text_lower := str_trim (to_lower_str text)
  if str_starts_with text_lower (chars "yes") ||
     str_contains text_lower (chars "answer is yes") ||
     text_lower = chars "true" then
    some true
  else if str_starts_with text_lower (chars "no") ||
          str_contains text_lower (chars "answer is no") ||
          text_lower = chars "false" then
    some false
  else
    none

example : extract_boolean (chars "Yes, that is correct") = some true := rfl
example : extract_boolean (chars "  TRUE ") = some true := rfl
example : extract_boolean (chars "No idea") = some false := rfl
example : extract_boolean (chars "maybe") = none := rfl

/-- Three backticks. -/
def code_fence : Str := [btickChar, btickChar, btickChar]

/-- Newline followed by three backticks (the closing delimiter sought by
the lazy capture group). -/
def nl_fence : Str := '\n' :: code_fence

/-- Split `hay` around the first occurrence of `needle`: the part before
it and the part after it. -/
def split_at_first_sub : Str → Str → Option (Str × Str)
  | hay, needle =>
    if str_starts_with hay needle then some ([], hay.drop needle.length)
    else match hay with
      | [] => none
      | c :: t => (split_at_first_sub t needle).map (fun p => (c :: p.1, p.2))

/-- The ways `\s*\n` can split a whitespace run `w`, longest consumed
prefix first (the order the regex engine backtracks through): pairs of the
part before a chosen newline and the part after it. -/
def nl_splits (w : Str) : List (Str × Str) :=
  (List.range w.length).reverse.filterMap (fun j =>
    if w.get? j = some '\n' then some (w.take j, w.drop (j + 1)) else none)

/-- Match `\s*\n([\s\S]*?)\n`+fence at the start of `rest2` (the position
just after the opening fence and optional `json` tag): greedy `\s*`
backtracks over which newline of the leading whitespace run it ends at,
and the lazy group captures up to the first `\n`+fence that follows. -/
def match_block_body (rest2 : Str) : Option Str :=
  let w := rest2.takeWhile is_ws_char
  let after := rest2.dropWhile is_ws_char
  (nl_splits w).findSome? (fun p =>
    (split_at_first_sub (p.2 ++ after) nl_fence).map (fun q => q.1))

/-- Match the fenced-code-block regex of `extract_json_code_block`
anchored at the start of `s`; the optional `json` tag is tried first
(greedy `(?:json)?`). -/
def match_block_at (s : Str) : Option Str :=
  if str_starts_with s code_fence then
    let rest1 := s.drop 3
    if str_starts_with rest1 (chars "json") then
      match match_block_body (rest1.drop 4) with
      | some cap => some cap
      | none => match_block_body rest1
    else match_block_body rest1
  else none

/-- `extract_json_code_block` (`src/runner.rs`): first (leftmost) match of
the fenced-block regex, returning the capture group. -/
def extract_json_code_block : Str → Option Str
  | [] => none
  | c :: rest =>
    match match_block_at (c :: rest) with
    | some cap => some cap
    | none => extract_json_code_block rest

example : extract_json_code_block
    (chars "Result:\n```json\n\x7b\"answer\": 42\x7d\n```\n")
    = some (chars "\x7b\"answer\": 42\x7d") := rfl
example : extract_json_code_block (chars "no fence here") = none := rfl

/-- Greedy match of `-?\d+\.?\d*` at the start of `s`: the matched text
and the remainder. -/
def num_core (t : Str) (sign : Str) : Option (Str × Str) :=
  let d1 := t.takeWhile is_digit_char
  if d1 = [] then none
  else
    let t2 := t.dropWhile is_digit_char
    match t2 with
    | '.' :: r =>
      let d2 := r.takeWhile is_digit_char
      some (sign ++ d1 ++ '.' :: d2, r.dropWhile is_digit_char)
    | _ => some (sign ++ d1, t2)

/-- Greedy match of the capture group `(-?\d+\.?\d*)` at the start of a
string (a `-` not followed by a digit cannot start a match). -/
def num_group : Str → Option (Str × Str)
  | '-' :: t => num_core t ['-']
  | s => num_core s []

/-- Match `(?:\s+is)?[:\s]+` followed by the payload, at the position just
after a keyword: greedy `\s+` can only end at the maximal whitespace run
(no whitespace character equals `i`), and when the optional `is` branch
fails the engine retries without it. -/
def after_keyword_payload (payload : Str → Option Str) (rest : Str) : Option Str :=
  let tryDirect : Str → Option Str := fun r =>
    let sep := fun c => c = ':' || is_ws_char c
    if r.takeWhile sep = [] then none
    else payload (r.dropWhile sep)
  let w := rest.takeWhile is_ws_char
  let afterW := rest.dropWhile is_ws_char
  if w ≠ [] ∧ str_starts_with afterW (chars "is") then
    match tryDirect (afterW.drop 2) with
    | some v => some v
    | none => tryDirect rest
  else tryDirect rest

/-- Leftmost match of `(?:kw1|kw2|...)(?:\s+is)?[:\s]+` + payload: try each
start position from the left, at each position the keywords in alternation
order. -/
def scan_keyword_payload (kws : List Str) (payload : Str → Option Str) : Str → Option Str
  | [] => none
  | c :: rest =>
    match kws.findSome? (fun kw =>
        if str_starts_with (c :: rest) kw then
          after_keyword_payload payload ((c :: rest).drop kw.length)
        else none) with
    | some v => some v
    | none => scan_keyword_payload kws payload rest

/-- Variant of `num_core` for the end-anchored pattern: a trailing bare
dot is dropped, since a group ending in `.` can never satisfy the closing
`\b(?:\s*$)` context. -/
def p3_core (t : Str) : Option (Str × Str) :=
  let d1 := t.takeWhile is_digit_char
  if d1 = [] then none
  else
    let t2 := t.dropWhile is_digit_char
    match t2 with
    | '.' :: r =>
      let d2 := r.takeWhile is_digit_char
      if d2 = [] then some (d1, t2)
      else some (d1 ++ '.' :: d2, r.dropWhile is_digit_char)
    | _ => some (d1, t2)

/-- The group of pattern 3 including the optional sign. -/
def p3_group : Str → Option (Str × Str)
  | '-' :: t => (p3_core t).map (fun p => ('-' :: p.1, p.2))
  | s => p3_core s

/-- Match `\b(-?\d+\.?\d*)\b(?:\s*$)` anchored at `s`, where `before` is
the character preceding `s` in the text (`none` at the start): a leading
`-` needs a word character before it, a leading digit needs a non-word
context, and after the group only whitespace may remain. -/
def p3_at (before : Option Char) (s : Str) : Option Str :=
  match s with
  | '-' :: _ =>
    if (match before with | some b => is_word_char b | none => false) then
      match p3_group s with
      | some (g, rest) => if rest.all is_ws_char then some g else none
      | none => none
    else none
  | c :: _ =>
    if is_digit_char c && (match before with | none => true | some b => ¬ is_word_char b) then
      match p3_group s with
      | some (g, rest) => if rest.all is_ws_char then some g else none
      | none => none
    else none
  | [] => none

/-- Leftmost match of pattern 3, threading the preceding character for the
word-boundary test. -/
def p3_scan : Option Char → Str → Option Str
  | _, [] => none
  | before, c :: rest =>
    match p3_at before (c :: rest) with
    | some g => some g
    | none => p3_scan (some c) rest

/-- `extract_number` (`src/runner.rs`): try the three regex patterns in
order — labelled number, whole-string number, number at the end of the
text — and parse the first capture as `f64`.  A pattern whose capture
fails to parse falls through to the next pattern, exactly as in the
source. -/
def extract_number (text : Str) : Option ℚ :=
  let try_parse : Str → Option ℚ := fun numstr =>
    match parse_f64 numstr with
    | some (.finite q) => some q
    | _ => none
  let p1 := scan_keyword_payload
    [chars "answer", chars "result", chars "solution"]
    (fun r => (num_group r).map (fun p => p.1)) text
  match p1.bind try_parse with
  | some q => some q
  | none =>
    let p2 : Option Str :=
      match num_group text with
      | some (numstr, []) => some numstr
      | _ => none
    match p2.bind try_parse with
    | some q => some q
    | none => (p3_scan none text).bind try_parse

example : extract_number (chars "The answer is 42") = some 42 := by
  show some ((42 + 0 / pow10q 0) * pow10q 0) = _
  norm_num [pow10q]
example : extract_number (chars "no digits at all") = none := rfl

/-- `extract_multiple_choice` (`src/runner.rs`): pattern
`(?:answer|choice)(?:\s+is)?[:\s]+([A-Za-z])`, capture uppercased. -/
def extract_multiple_choice (text : Str) : Option Str :=
  (scan_keyword_payload [chars "answer", chars "choice"]
    (fun r =>
      match r with
      | c :: _ => if is_alpha_char c then some [c] else none
      | [] => none) text).map (fun cap => cap.map Char.toUpper)

example : extract_multiple_choice (chars "The answer is B") = some (chars "B") := rfl
example : extract_multiple_choice (chars "choice: d") = some (chars "D") := rfl

/-- The capture of `\s*(.+)$` (multi-line mode) starting right after the
colon: greedy `\s*` may run across newlines, the group then takes the
maximal newline-free run; when everything up to the end of text is
whitespace, backtracking leaves the last non-newline whitespace character
as the capture.  Returns the capture and the remainder after the match. -/
def kv_value (r : Str) : Option (Str × Str) :=
  let w := r.takeWhile is_ws_char
  let body := r.dropWhile is_ws_char
  match body with
  | _ :: _ =>
    let v := body.takeWhile (fun c => c ≠ '\n')
    some (v, body.dropWhile (fun c => c ≠ '\n'))
  | [] =>
    match w.reverse.dropWhile (fun c => c = '\n') with
    | c :: _ => some ([c], (w.reverse.takeWhile (fun c => c = '\n')).reverse)
    | [] => none

/-- Match `(?m)^([A-Za-z\s]+):\s*(.+)$` at a line-start position: label
run (letters and whitespace, possibly spanning lines), colon, value.
Returns label, value and the remainder after the match. -/
def kv_match_at (s : Str) : Option (Str × Str × Str) :=
  let cls := fun c => is_alpha_char c || is_ws_char c
  match s.takeWhile cls, s.dropWhile cls with
  | run1@(_ :: _), ':' :: r =>
    (kv_value r).map (fun p => (run1, p.1, p.2))
  | _, _ => none

/-- Coerce one captured value as the source does: try `f64` (a non-finite
parse makes the whole extraction abort through the `?` on
`Number::from_f64`, signalled here by `none`), then boolean, then keep the
string. -/
def kv_coerce (value_str : Str) : Option Json :=
  match parse_f64 value_str with
  | some f =>
    match number_from_f64 f with
    | some n => some (.num n)
    | none => none
  | none =>
    match extract_boolean value_str with
    | some b => some (.bool b)
    | none => some (.str value_str)

/-- Iterate the non-overlapping matches of the key-value regex
(`captures_iter`): positions are scanned left to right, a match may start
only at a line start, and scanning resumes after each match. -/
def kv_iter : Nat → Str → Bool → List (Str × Json) → Option (List (Str × Json))
  | 0, _, _, _ => none
  | _ + 1, [], _, acc => some acc
  | fuel + 1, c :: rest, lineStart, acc =>
    if lineStart then
      match kv_match_at (c :: rest) with
      | some (key, value, after) =>
        let key_str := (to_lower_str (str_trim key)).map
          (fun ch => if ch = ' ' then '_' else ch)
        match kv_coerce (str_trim value) with
        | none => none
        | some v => kv_iter fuel after false (map_insert key_str v acc)
      | none => kv_iter fuel rest (c = '\n') acc
    else kv_iter fuel rest (c = '\n') acc

/-- `extract_key_value_pairs` (`src/runner.rs`): collect the coerced
pairs of every match into a `BTreeMap`; the result is an object only when
at least one pair was found. -/
def extract_key_value_pairs (text : Str) : Option Json :=
  match kv_iter (text.length + 1) text true [] with
  | none => none
  | some m => if m.isEmpty then none else some (.obj m)

example : extract_key_value_pairs (chars "just prose") = none := rfl

/-- Match the placeholder regex `\x7b\x7b\s*(\w+)\s*\x7d\x7d` anchored at
the start of `s`: returns the key, the full matched text and the
remainder.  The character classes are pairwise disjoint and disjoint from
the closing braces, so the greedy quantifiers are deterministic. -/
def match_placeholder (s : Str) : Option (Str × Str × Str) :=
  match s with
  | c1 :: c2 :: rest =>
    if c1 = lbraceChar && c2 = lbraceChar then
      let ws1 := rest.takeWhile is_ws_char
      let r1 := rest.dropWhile is_ws_char
      let key := r1.takeWhile is_word_char
      let r2 := r1.dropWhile is_word_char
      let ws2 := r2.takeWhile is_ws_char
      let r3 := r2.dropWhile is_ws_char
      match key, r3 with
      | _ :: _, d1 :: d2 :: after =>
        if d1 = rbraceChar && d2 = rbraceChar then
          some (key, c1 :: c2 :: (ws1 ++ key ++ ws2 ++ [d1, d2]), after)
        else none
      | _, _ => none
    else none
  | _ => none

/-- Whether the placeholder regex matches anywhere in the template. -/
def has_placeholder : Str → Bool
  | [] => false
  | c :: rest => (match_placeholder (c :: rest)).isSome || has_placeholder rest

/-- Scanning loop of `Regex::replace_all` for the placeholder regex: at
each position try the anchored match; on a match emit the substitution
(the looked-up string value, or the original matched text when the key is
absent or its value is not a string) and resume after the match.  `fuel`
exceeds the template length, so it never runs out. -/
def rt_scan : Nat → Str → Json → Str
  | 0, s, _ => s
  | _ + 1, [], _ => []
  | fuel + 1, c :: rest, d =>
    match match_placeholder (c :: rest) with
    | some (key, raw, after) =>
      (match (json_get d key).bind json_as_str with
       | some v => v
       | none => raw) ++ rt_scan fuel after d
    | none => c :: rt_scan fuel rest d

/-- `render_template` (`src/config.rs`). -/
def render_template (template : Str) (data : Json) : Str :=
  rt_scan (template.length + 1) template data

example : render_template (chars "What is the capital of \x7b\x7bcountry\x7d\x7d?")
    (.obj [(chars "country", .str (chars "France"))])
    = chars "What is the capital of France?" := rfl
example : render_template (chars "\x7b\x7b missing \x7d\x7d!") (.obj [])
    = chars "\x7b\x7b missing \x7d\x7d!" := rfl
example : render_template (chars "\x7b\x7bk\x7d\x7d") (.obj [(chars "k", .num (.int 3))])
    = chars "\x7b\x7bk\x7d\x7d" := rfl

/-- `EvalConfig` (`src/config.rs`). -/
structure EvalConfig where
  model : Str
  prompt : Str
  expected : Option Str
  judge_model : Option Str
  criteria : Option Str
  tags : List Str
  metadata : Option Json

/-- `EvalConfig::render` (`src/config.rs`): substitute metadata
placeholders into `prompt` and `expected`.  The source wraps the result in
`Ok` unconditionally, so the `?` applied by the runner can never fail and
the `Result` layer is dropped here. -/
def EvalConfig.render (e : EvalConfig) : EvalConfig :=
  match e.metadata with
  | none => e
  | some m =>
    { e with prompt := render_template e.prompt m,
             expected := e.expected.map (fun x => render_template x m) }

/-- `JudgeVerdict` (`src/runner.rs`). -/
inductive JudgeVerdict where
  | pass
  | fail
  | uncertain
deriving DecidableEq, Repr

/-- `JudgeResult` (`src/runner.rs`).  `confidence` is an `Option<f32>`
that the source never sets; it is modelled as an always-`none` rational
option. -/
structure JudgeResult where
  judge_model : Str
  verdict : JudgeVerdict
  reasoning : Option Str
  confidence : Option ℚ

/-- `parse_judge_response` (`src/runner.rs`): lowercase the response; the
Pass test (explicit "verdict: pass", or leading "yes", or "yes, they")
runs before the Fail test (explicit "verdict: fail", or leading "no", or
"no, they"); reasoning is the raw response exactly when its byte length
exceeds 20. -/
def parse_judge_response (response : Str) : JudgeResult :=
  let response_lower := to_lower_str response
  let verdict :=
    if str_contains response_lower (chars "verdict: pass") ||
       (str_starts_with response_lower (chars "yes") ||
        str_contains response_lower (chars "yes, they")) then
      JudgeVerdict.pass
    else if str_contains response_lower (chars "verdict: fail") ||
            (str_starts_with response_lower (chars "no") ||
             str_contains response_lower (chars "no, they")) then
      JudgeVerdict.fail
    else
      JudgeVerdict.uncertain
  { judge_model := chars "unknown",
    verdict := verdict,
    reasoning := if 20 < utf8_len response then some response else none,
    confidence := none }

/-- Default judging criteria (`src/runner.rs`, `create_judge_prompt`). -/
def default_criteria : Str :=
  chars "The outputs should convey the same core meaning, even if phrased differently."

/-- Fixed prefix of the built-in judge prompt. -/
def judge_prompt_head : Str :=
  chars "You are an expert evaluator comparing two text outputs.\n\nEVALUATION CRITERIA:\n"

/-- Fixed text between criteria and expected output. -/
def judge_prompt_mid1 : Str := chars "\n\nEXPECTED OUTPUT:\n"

/-- Fixed text between expected and actual output. -/
def judge_prompt_mid2 : Str := chars "\n\nACTUAL OUTPUT:\n"

/-- Fixed suffix of the built-in judge prompt. -/
def judge_prompt_tail : Str :=
  chars "\n\nINSTRUCTIONS:\n1. Carefully compare both outputs\n2. Consider semantic equivalence, not just exact wording\n3. Provide your verdict as the first line: \"Verdict: PASS\" or \"Verdict: FAIL\"\n4. Then explain your reasoning in 2-3 sentences\n\nYour evaluation:"

/-- `create_judge_prompt` (`src/runner.rs`): the fixed built-in template
instantiated with criteria (caller's, or the default sentence), expected
and actual output. -/
def create_judge_prompt (expected actual : Str) (criteria : Option Str) : Str :=
  let base_criteria := criteria.getD default_criteria
  judge_prompt_head ++ base_criteria ++ judge_prompt_mid1 ++ expected ++
    judge_prompt_mid2 ++ actual ++ judge_prompt_tail

/-- `parse_model_output` (`src/runner.rs`): the six-strategy cascade.  A
strategy that produces nothing falls through to the next; strategy 2 also
falls through when the fenced block's contents fail to parse as JSON. -/
def parse_model_output (raw_output : Str) : Option Json :=
  match serde_from_str raw_output with
  | some json => some json
  | none =>
    match (extract_json_code_block raw_output).bind serde_from_str with
    | some parsed => some parsed
    | none =>
      match extract_number raw_output with
      | some number => some (.obj [(chars "answer", .num (.float number))])
      | none =>
        match extract_boolean raw_output with
        | some boolean => some (.obj [(chars "answer", .bool boolean)])
        | none =>
          match extract_multiple_choice raw_output with
          | some choice => some (.obj [(chars "answer", .str choice)])
          | none => extract_key_value_pairs raw_output

example : parse_model_output (chars "\x7b\"name\": \"Alice\", \"age\": 30\x7d")
    = some (.obj [(chars "age", .num (.int 30)), (chars "name", .str (chars "Alice"))]) := rfl
example : parse_model_output (chars "This is just random text without structure") = none := rfl

/-- `EvalError` (`src/errors.rs`); error payloads that are only carried
along (io errors, parse errors, `reqwest` errors) are modelled as their
display strings. -/
inductive EvalError where
  | fileRead (msg : Str)
  | tomlParse (msg : Str)
  | jsonParse (msg : Str)
  | request (msg : Str)
  | apiError (status : Nat) (body : Str)
  | apiResponse (msg : Str)
  | unexpectedResponse (msg : Str)
  | emptyResponse
  | modelFailure (model : Str)
  | judgeFailure (model : Str) (cause : EvalError)
  | config (msg : Str)
  | providerNotFound (name : Str)
deriving DecidableEq, Repr

/-- `TokenUsage` (`src/providers`): optional input/output token counts. -/
structure TokenUsage where
  input_tokens : Option Nat
  output_tokens : Option Nat
deriving DecidableEq, Repr

/-- Per-provider configuration (`src/config.rs` has one struct per
provider; only presence and identity matter to the dispatcher, so they are
unified). -/
structure ProviderConfig where
  api_base : Str
  api_key : Option Str
  models : List Str

/-- `AppConfig` (`src/config.rs`, plus the `anthropic` entry that
`src/runner.rs` dispatches on). -/
structure AppConfig where
  anthropic : Option ProviderConfig
  gemini : Option ProviderConfig
  ollama : Option ProviderConfig
  openai : Option ProviderConfig
  models : List Str

/-- The network: what a provider adapter's `generate(model, prompt)`
returns, indexed by provider name, model name and prompt.  This oracle
abstracts the HTTP call performed by `src/providers/*`; the adapters
return text, latency and token usage, or one of the adapter-level errors
(`Request`, `ApiError`, `ApiResponse`, `UnexpectedResponse`,
`EmptyResponse`) — never `ProviderNotFound`, which only the dispatcher
produces. -/
def Net : Type := Str → Str → Str → Except EvalError (Str × Nat × TokenUsage)

/-- `call_provider` (`src/runner.rs`): look up the provider's
configuration; a missing entry (or an unknown provider name) is
`ProviderNotFound` before any network activity; a present entry delegates
to the adapter. -/
def call_provider (config : AppConfig) (net : Net)
    (provider_name model_name prompt : Str) :
    Except EvalError (Str × Nat × TokenUsage) :=
  if provider_name = chars "anthropic" then
    match config.anthropic with
    | some _ => net provider_name model_name prompt
    | none => .error (.providerNotFound (chars "anthropic"))
  else if provider_name = chars "gemini" then
    match config.gemini with
    | some _ => net provider_name model_name prompt
    | none => .error (.providerNotFound (chars "gemini"))
  else if provider_name = chars "ollama" then
    match config.ollama with
    | some _ => net provider_name model_name prompt
    | none => .error (.providerNotFound (chars "ollama"))
  else if provider_name = chars "openai" then
    match config.openai with
    | some _ => net provider_name model_name prompt
    | none => .error (.providerNotFound (chars "openai"))
  else .error (.providerNotFound provider_name)

/-- Whether `call_provider` finds a configuration for `provider_name`
(mirrors the lookup structure of `call_provider`). -/
def provider_configured (config : AppConfig) (provider_name : Str) : Bool :=
  if provider_name = chars "anthropic" then config.anthropic.isSome
  else if provider_name = chars "gemini" then config.gemini.isSome
  else if provider_name = chars "ollama" then config.ollama.isSome
  else if provider_name = chars "openai" then config.openai.isSome
  else false

/-- Rust `str::split_once(':')`: split at the first colon. -/
def split_once_colon : Str → Option (Str × Str)
  | [] => none
  | c :: rest =>
    if c = ':' then some ([], rest)
    else (split_once_colon rest).map (fun p => (c :: p.1, p.2))

/-- The provider used when a model string has no `provider:` prefix
(`src/runner.rs` hard-codes `"gemini"`). -/
def default_provider : Str := chars "gemini"

/-- `parse_model_string` (`src/runner.rs`). -/
def parse_model_string (model_str : Str) : Str × Str :=
  match split_once_colon model_str with
  | some (provider, model) => (provider, model)
  | none => (default_provider, model_str)

example : parse_model_string (chars "anthropic:claude-sonnet-4")
    = (chars "anthropic", chars "claude-sonnet-4") := rfl
example : parse_model_string (chars "gemini-1.5-flash")
    = (chars "gemini", chars "gemini-1.5-flash") := rfl

/-- `EvalResult` (`src/runner.rs`). -/
structure EvalResult where
  model : Str
  prompt : Str
  model_output : Str
  parsed_output : Option Json
  expected : Option Str
  judge_result : Option JudgeResult
  timestamp : Str
  latency_ms : Nat
  judge_latency_ms : Option Nat
  token_usage : Option TokenUsage
  judge_token_usage : Option TokenUsage
  total_latency_ms : Nat

/-- `run_eval` (`src/runner.rs`).  The wall clock enters as the oracle
parameters `ts` (the rfc3339 timestamp) and `total_latency` (the elapsed
time measured around the whole evaluation); neither influences control
flow.  A primary-call failure aborts with `ProviderNotFound` passed
through unchanged or any other error rewrapped as `ModelFailure`; a judge
failure is logged and degrades to an absent `judge_result`. -/
def run_eval (config : AppConfig) (eval : EvalConfig) (net : Net)
    (ts : Str) (total_latency : Nat) : Except EvalError EvalResult :=
  let rendered_eval := eval.render
  let pm := parse_model_string rendered_eval.model
  match call_provider config net pm.1 pm.2 rendered_eval.prompt with
  | .error e =>
    match e with
    | .providerNotFound p => .error (.providerNotFound p)
    | _ => .error (.modelFailure rendered_eval.model)
  | .ok (model_output_str, latency_ms, token_usage) =>
    let parsed_output := parse_model_output model_output_str
    let judge_triple : Option Nat × Option TokenUsage × Option JudgeResult :=
      match rendered_eval.expected, rendered_eval.judge_model with
      | some expected, some judge_model =>
        let judge_prompt := create_judge_prompt expected model_output_str
          rendered_eval.criteria
        let jpm := parse_model_string judge_model
        match call_provider config net jpm.1 jpm.2 judge_prompt with
        | .ok (judge_response, judge_latency, tokens) =>
          (some judge_latency, some tokens,
           some { parse_judge_response judge_response with judge_model := judge_model })
        | .error _ => (none, none, none)
      | _, _ => (none, none, none)
    .ok {
      model := rendered_eval.model,
      prompt := rendered_eval.prompt,
      model_output := model_output_str,
      parsed_output := parsed_output,
      expected := rendered_eval.expected,
      judge_result := judge_triple.2.2,
      timestamp := ts,
      latency_ms := latency_ms,
      judge_latency_ms := judge_triple.1,
      token_usage :=
        if token_usage.input_tokens.isSome || token_usage.output_tokens.isSome then
          some token_usage
        else none,
      judge_token_usage := judge_triple.2.1,
      total_latency_ms := total_latency }

/-- `run_batch_evals` (`src/runner.rs`): one future per request collected
in input order by `future::join_all`, whose output vector is positionally
aligned with the input regardless of completion order. -/
def run_batch_evals (config : AppConfig) (evals : List EvalConfig) (net : Net)
    (ts : Str) (total_latency : Nat) : List (Except EvalError EvalResult) :=
  evals.map (fun eval => run_eval config eval net ts total_latency)

/-- Modelled from the spec: the template store interface of §6
(`get_active_judge_template() -> Result(version, body | NotFound |
StoreError)`), together with the "no store configured" state (§9: the
optional database pool); the store-aware runner (`run_eval_with_pool`,
called from `src/api/handlers/evals.rs` and persisted through the
`judge_prompt_version` column in `src/database.rs`) is not part of the
source snapshot, so its template resolution is modelled from the spec's
words. -/
inductive TemplateStoreResult where
  | active (version : Int) (body : Str)
  | notFound
  | storeError (msg : Str)

/-- The judge-prompt body as a stored template: the runner's fixed text
with `criteria`, `expected` and `actual` as placeholders (spec §4.5). -/
def builtin_judge_template : Str :=
  judge_prompt_head ++ chars "\x7b\x7bcriteria\x7d\x7d" ++ judge_prompt_mid1 ++
    chars "\x7b\x7bexpected\x7d\x7d" ++ judge_prompt_mid2 ++
    chars "\x7b\x7bactual\x7d\x7d" ++ judge_prompt_tail

/-- Modelled from the spec: resolve the active judge template — a loaded
active template is used with its version; on any failure (store not
configured, no active template, store error) fall back to the built-in
template with no version recorded (spec §4.5, §6). -/
def resolve_judge_template : Option TemplateStoreResult → Option Int × Str
  | some (.active version body) => (some version, body)
  | some .notFound => (none, builtin_judge_template)
  | some (.storeError _) => (none, builtin_judge_template)
  | none => (none, builtin_judge_template)

/-- Template variables of the judge prompt (spec §4.5): `criteria` (the
caller's, or the fixed default sentence), `expected`, `actual`. -/
def judge_vars (expected actual : Str) (criteria : Option Str) : Json :=
  .obj [(chars "actual", .str actual),
        (chars "criteria", .str (criteria.getD default_criteria)),
        (chars "expected", .str expected)]

/-- Modelled from the spec: the judge-prompt construction of the
store-aware runner — resolve the template, render it with the template
variables, and record which version (if any) was actually used; the
version travels into the outcome's `judge_prompt_version` field. -/
def judge_prompt_with_store (store : Option TemplateStoreResult)
    (expected actual : Str) (criteria : Option Str) : Option Int × Str :=
  let r := resolve_judge_template store
  (r.1, render_template r.2 (judge_vars expected actual criteria))

/-- A provider configuration used in concrete scenarios. -/
def sample_provider : ProviderConfig :=
  { api_base := chars "http://localhost", api_key := none, models := [] }

/-- A configuration with only the `gemini` provider present. -/
def sample_config : AppConfig :=
  { anthropic := none, gemini := some sample_provider,
    ollama := none, openai := none, models := [] }

/-- A configuration with no provider present. -/
def empty_config : AppConfig :=
  { anthropic := none, gemini := none, ollama := none, openai := none,
    models := [] }

/-- Token usage with no accounting. -/
def no_usage : TokenUsage := { input_tokens := none, output_tokens := none }

/-- A request mirroring the spec's end-to-end example. -/
def sample_eval : EvalConfig :=
  { model := chars "gemini:flash", prompt := chars "What is 2+2?",
    expected := some (chars "4"), judge_model := some (chars "gemini:pro"),
    criteria := none, tags := [], metadata := none }

/-- C1 counterexample: the runner parses the raw text "4" by strategy 1
(whole-string JSON parse), which returns the parsed value directly — the
JSON number `4`, not the object with an `answer` field that the claim
requires (under either numeric representation of `4`). -/
theorem parse_output_whole_json_counterexample :
    parse_model_output (chars "4") = some (.num (.int 4)) ∧
    parse_model_output (chars "4")
      ≠ some (.obj [(chars "answer", .num (.int 4))]) ∧
    parse_model_output (chars "4")
      ≠ some (.obj [(chars "answer", .num (.float 4))]) := by
  refine ⟨rfl, ?_, ?_⟩ <;> · rw [show parse_model_output (chars "4")
    = some (.num (.int 4)) from rfl]; simp

/-- C1 (amended): for an evaluation whose primary model call returns the
raw text "4", the outcome has `model_output` "4" and `parsed_output` equal
to the JSON number `4` (strategy 1 returns the whole-string JSON parse
directly, without wrapping it in an `answer` object); the judge response
"Verdict: PASS\nBoth indicate four." yields a `Pass` verdict with the full
text as reasoning. -/
theorem run_eval_end_to_end_number :
    run_eval sample_config sample_eval
      (fun _ m _ =>
        if m = chars "flash" then .ok (chars "4", 5, no_usage)
        else .ok (chars "Verdict: PASS\nBoth indicate four.", 7, no_usage))
      (chars "2026-01-01T00:00:00Z") 12
    = .ok {
        model := chars "gemini:flash",
        prompt := chars "What is 2+2?",
        model_output := chars "4",
        parsed_output := some (.num (.int 4)),
        expected := some (chars "4"),
        judge_result := some {
          judge_model := chars "gemini:pro",
          verdict := .pass,
          reasoning := some (chars "Verdict: PASS\nBoth indicate four."),
          confidence := none },
        timestamp := chars "2026-01-01T00:00:00Z",
        latency_ms := 5,
        judge_latency_ms := some 7,
        token_usage := none,
        judge_token_usage := some no_usage,
        total_latency_ms := 12 } := rfl

/-- C2 counterexample: the claim requires an explicit "verdict: fail"
occurrence to take precedence over an affirmative cue, but the source
tests the Pass conditions first, so a response that starts with "yes" and
contains "verdict: fail" is classified `Pass`, not `Fail`. -/
theorem judge_fail_precedence_counterexample :
    str_starts_with (to_lower_str (chars "yes, but Verdict: FAIL")) (chars "yes") = true ∧
    str_contains (to_lower_str (chars "yes, but Verdict: FAIL")) (chars "verdict: fail") = true ∧
    (parse_judge_response (chars "yes, but Verdict: FAIL")).verdict = .pass ∧
    (parse_judge_response (chars "yes, but Verdict: FAIL")).verdict ≠ .fail := by
  refine ⟨rfl, rfl, rfl, ?_⟩
  rw [show (parse_judge_response (chars "yes, but Verdict: FAIL")).verdict
    = .pass from rfl]
  simp

/-- C2 (amended): verdict classification is case-insensitive (all tests
run on the lowercased response).  The Pass test — explicit "verdict: pass",
or a leading "yes", or a "yes, they" occurrence — runs first; only when it
fails does the Fail test — explicit "verdict: fail", or a leading "no", or
a "no, they" occurrence — run; everything else is `Uncertain`.  Thus
"verdict: pass" takes precedence over negative cues, but "verdict: fail"
does not take precedence over affirmative cues.  The reasoning field is
the full raw text exactly when its byte length exceeds 20, else absent.
In particular "Verdict: PASS\n..." maps to `Pass`, "No, they differ" maps
to `Fail`, and "Maybe" maps to `Uncertain`. -/
theorem judge_verdict_classification :
    (∀ s : Str,
      (str_contains (to_lower_str s) (chars "verdict: pass") = true ∨
       str_starts_with (to_lower_str s) (chars "yes") = true ∨
       str_contains (to_lower_str s) (chars "yes, they") = true) →
      (parse_judge_response s).verdict = .pass) ∧
    (∀ s : Str,
      str_contains (to_lower_str s) (chars "verdict: pass") = false →
      str_starts_with (to_lower_str s) (chars "yes") = false →
      str_contains (to_lower_str s) (chars "yes, they") = false →
      (str_contains (to_lower_str s) (chars "verdict: fail") = true ∨
       str_starts_with (to_lower_str s) (chars "no") = true ∨
       str_contains (to_lower_str s) (chars "no, they") = true) →
      (parse_judge_response s).verdict = .fail) ∧
    (∀ s : Str,
      str_contains (to_lower_str s) (chars "verdict: pass") = false →
      str_starts_with (to_lower_str s) (chars "yes") = false →
      str_contains (to_lower_str s) (chars "yes, they") = false →
      str_contains (to_lower_str s) (chars "verdict: fail") = false →
      str_starts_with (to_lower_str s) (chars "no") = false →
      str_contains (to_lower_str s) (chars "no, they") = false →
      (parse_judge_response s).verdict = .uncertain) ∧
    (∀ s : Str, (parse_judge_response s).reasoning
      = if 20 < utf8_len s then some s else none) ∧
    (parse_judge_response (chars "Verdict: PASS\nBoth indicate four.")).verdict = .pass ∧
    (parse_judge_response (chars "No, they differ")).verdict = .fail ∧
    (parse_judge_response (chars "Maybe")).verdict = .uncertain := by
  refine ⟨?_, ?_, ?_, fun s => rfl, rfl, rfl, rfl⟩
  · intro s h
    rcases h with h | h | h <;> simp [parse_judge_response, h]
  · intro s h1 h2 h3 h
    rcases h with h | h | h <;> simp [parse_judge_response, h1, h2, h3, h]
  · intro s h1 h2 h3 h4 h5 h6
    simp [parse_judge_response, h1, h2, h3, h4, h5, h6]

/-- Witness for `judge_verdict_classification` at concrete inputs. -/
theorem judge_verdict_classification_witness :
    (parse_judge_response (chars "YES, they match")).verdict = .pass ∧
    (parse_judge_response (chars "no, they differ a lot")).verdict = .fail ∧
    (parse_judge_response (chars "hard to say")).verdict = .uncertain :=
  ⟨judge_verdict_classification.1 (chars "YES, they match")
      (Or.inr (Or.inl rfl)),
   judge_verdict_classification.2.1 (chars "no, they differ a lot")
      rfl rfl rfl (Or.inr (Or.inl rfl)),
   judge_verdict_classification.2.2.1 (chars "hard to say")
      rfl rfl rfl rfl rfl rfl⟩

/-- C9 counterexample: the claim requires every text starting with "true"
(lowercased, trimmed) to map to `true`, but the source compares for
equality with "true", so "trueish" maps to absent. -/
theorem extract_boolean_true_prefix_counterexample :
    str_starts_with (str_trim (to_lower_str (chars "trueish"))) (chars "true") = true ∧
    extract_boolean (chars "trueish") = none := ⟨rfl, rfl⟩

/-- C9 (amended): with `t` the lowercased-and-trimmed text,
`extract_boolean` returns `true` when `t` starts with "yes", contains
"answer is yes", or equals "true" (equality, not prefix); otherwise it
returns `false` when `t` starts with "no", contains "answer is no", or
equals "false"; otherwise it returns absent.  The `true` test runs first,
so a text that starts with "no" but contains "answer is yes" returns
`true`. -/
theorem extract_boolean_classification :
    (∀ s : Str,
      (str_starts_with (str_trim (to_lower_str s)) (chars "yes") = true ∨
       str_contains (str_trim (to_lower_str s)) (chars "answer is yes") = true ∨
       str_trim (to_lower_str s) = chars "true") →
      extract_boolean s = some true) ∧
    (∀ s : Str,
      str_starts_with (str_trim (to_lower_str s)) (chars "yes") = false →
      str_contains (str_trim (to_lower_str s)) (chars "answer is yes") = false →
      str_trim (to_lower_str s) ≠ chars "true" →
      (str_starts_with (str_trim (to_lower_str s)) (chars "no") = true ∨
       str_contains (str_trim (to_lower_str s)) (chars "answer is no") = true ∨
       str_trim (to_lower_str s) = chars "false") →
      extract_boolean s = some false) ∧
    (∀ s : Str,
      str_starts_with (str_trim (to_lower_str s)) (chars "yes") = false →
      str_contains (str_trim (to_lower_str s)) (chars "answer is yes") = false →
      str_trim (to_lower_str s) ≠ chars "true" →
      str_starts_with (str_trim (to_lower_str s)) (chars "no") = false →
      str_contains (str_trim (to_lower_str s)) (chars "answer is no") = false →
      str_trim (to_lower_str s) ≠ chars "false" →
      extract_boolean s = none) ∧
    extract_boolean (chars "no, but the answer is yes") = some true := by
  refine ⟨?_, ?_, ?_, rfl⟩
  · intro s h
    rcases h with h | h | h <;> simp [extract_boolean, h]
  · intro s h1 h2 h3 h
    rcases h with h | h | h <;> · simp [extract_boolean, h1, h2, h3, h]; try decide
  · intro s h1 h2 h3 h4 h5 h6
    simp [extract_boolean, h1, h2, h3, h4, h5, h6]

/-- Witness for `extract_boolean_classification` at concrete inputs. -/
theorem extract_boolean_classification_witness :
    extract_boolean (chars " TRUE ") = some true ∧
    extract_boolean (chars "False") = some false ∧
    extract_boolean (chars "perhaps") = none :=
  ⟨extract_boolean_classification.1 (chars " TRUE ") (Or.inr (Or.inr rfl)),
   extract_boolean_classification.2.1 (chars "False")
      rfl rfl (by decide) (Or.inr (Or.inr rfl)),
   extract_boolean_classification.2.2.1 (chars "perhaps")
      rfl rfl (by decide) rfl rfl (by decide)⟩

/-- C10 counterexample: on "Name: John\nAge: 25\n" the source parses "25"
as `f64` and stores it through `Number::from_f64`, producing the float
`25.0` — a value distinct from the integer `25` required by the claim
(shown against both orderings of the claimed object; the map itself is the
sorted `BTreeMap`). -/
theorem extract_kv_float_counterexample :
    extract_key_value_pairs (chars "Name: John\nAge: 25\n")
      = some (.obj [(chars "age", .num (.float 25)),
                    (chars "name", .str (chars "John"))]) ∧
    extract_key_value_pairs (chars "Name: John\nAge: 25\n")
      ≠ some (.obj [(chars "age", .num (.int 25)),
                    (chars "name", .str (chars "John"))]) ∧
    extract_key_value_pairs (chars "Name: John\nAge: 25\n")
      ≠ some (.obj [(chars "name", .str (chars "John")),
                    (chars "age", .num (.int 25))]) := by
  have h : extract_key_value_pairs (chars "Name: John\nAge: 25\n")
      = some (.obj [(chars "age", .num (.float 25)),
                    (chars "name", .str (chars "John"))]) := by
    show some (Json.obj [(chars "age",
        .num (.float ((25 + 0 / pow10q 0) * pow10q 0))),
      (chars "name", .str (chars "John"))]) = _
    norm_num [pow10q]
  refine ⟨h, ?_, ?_⟩ <;> · rw [h]; simp [chars]

/-- C10 (amended): `extract_key_value_pairs("Name: John\nAge: 25\n")`
returns the object with key "name" bound to the string "John" and key
"age" bound to the floating-point number `25.0` (the value "25" parses as
`f64` and is stored through `Number::from_f64`, which always yields the
float variant — not the integer `25`); keys are normalized to lower case
and the map is ordered by key. -/
theorem extract_kv_example :
    extract_key_value_pairs (chars "Name: John\nAge: 25\n")
      = some (.obj [(chars "age", .num (.float 25)),
                    (chars "name", .str (chars "John"))]) := by
  show some (Json.obj [(chars "age",
      .num (.float ((25 + 0 / pow10q 0) * pow10q 0))),
    (chars "name", .str (chars "John"))]) = _
  norm_num [pow10q]

/-- `split_once` finds the first colon: a colon-free prefix is skipped. -/
theorem split_once_colon_app (pre post : Str) (h : ':' ∉ pre) :
    split_once_colon (pre ++ ':' :: post) = some (pre, post) := by
  induction pre with
  | nil => simp [split_once_colon]
  | cons c t ih =>
    have hc : ¬ (c = ':') := fun hh => h (hh ▸ List.mem_cons_self c t)
    simp [split_once_colon, if_neg hc,
      ih (fun hm => h (List.mem_cons_of_mem c hm))]

/-- `split_once` on a colon-free string finds nothing. -/
theorem split_once_colon_none (s : Str) (h : ':' ∉ s) :
    split_once_colon s = none := by
  induction s with
  | nil => rfl
  | cons c t ih =>
    have hc : ¬ (c = ':') := fun hh => h (hh ▸ List.mem_cons_self c t)
    simp [split_once_colon, if_neg hc,
      ih (fun hm => h (List.mem_cons_of_mem c hm))]

/-- C7: `parse_model_string` splits a model identifier at the first `:`
into provider and model name; without a colon the whole string is the
model name and the provider is the system's default primary provider
(`"gemini"`, the hard-coded default of `src/runner.rs`).  In particular
"anthropic:claude-x" splits into ("anthropic", "claude-x") and a bare
"claude-x" resolves to the default provider. -/
theorem parse_model_string_spec :
    (∀ pre post : Str, ':' ∉ pre →
      parse_model_string (pre ++ ':' :: post) = (pre, post)) ∧
    (∀ s : Str, ':' ∉ s → parse_model_string s = (default_provider, s)) ∧
    parse_model_string (chars "anthropic:claude-x")
      = (chars "anthropic", chars "claude-x") ∧
    parse_model_string (chars "claude-x") = (default_provider, chars "claude-x") := by
  refine ⟨?_, ?_, rfl, rfl⟩
  · intro pre post h
    simp [parse_model_string, split_once_colon_app pre post h]
  · intro s h
    simp [parse_model_string, split_once_colon_none s h]

/-- Witness for `parse_model_string_spec` at concrete inputs. -/
theorem parse_model_string_spec_witness :
    parse_model_string (chars "gemini" ++ ':' :: chars "flash")
      = (chars "gemini", chars "flash") ∧
    parse_model_string (chars "flash") = (default_provider, chars "flash") :=
  ⟨parse_model_string_spec.1 (chars "gemini") (chars "flash") (by decide),
   parse_model_string_spec.2.1 (chars "flash") (by decide)⟩

/-- C5: `run_batch_evals` returns exactly one result per request, and the
result at position `i` is exactly the result of running request `i` alone
(`future::join_all` collects the futures' outputs in input order, so
completion order cannot affect positions, and no state is shared between
the evaluations — a failing request leaves every other position's value
the one `run_eval` produces for that request by itself). -/
theorem run_batch_evals_positional :
    ∀ (config : AppConfig) (evals : List EvalConfig) (net : Net)
      (ts : Str) (tl : Nat),
      (run_batch_evals config evals net ts tl).length = evals.length ∧
      ∀ i : Nat, (run_batch_evals config evals net ts tl)[i]?
        = (evals[i]?).map (fun e => run_eval config e net ts tl) := by
  intro config evals net ts tl
  refine ⟨by simp [run_batch_evals], fun i => ?_⟩
  simp [run_batch_evals]

/-- C3: when the primary generation call succeeds and the judge provider
call fails — for any reason `e` whatsoever — `run_eval` still returns `Ok`
with `judge_result`, `judge_latency_ms` and `judge_token_usage` all
absent; the judge failure is never the evaluation's own error. -/
theorem run_eval_judge_failure_recovered
    (config : AppConfig) (eval : EvalConfig) (net : Net) (ts : Str) (tl : Nat)
    (out : Str) (lat : Nat) (tu : TokenUsage)
    (expected judge_model : Str) (e : EvalError)
    (hexp : eval.render.expected = some expected)
    (hjm : eval.render.judge_model = some judge_model)
    (hprimary : call_provider config net (parse_model_string eval.render.model).1
      (parse_model_string eval.render.model).2 eval.render.prompt
      = .ok (out, lat, tu))
    (hjudge : call_provider config net (parse_model_string judge_model).1
      (parse_model_string judge_model).2
      (create_judge_prompt expected out eval.render.criteria) = .error e) :
    run_eval config eval net ts tl = .ok {
      model := eval.render.model,
      prompt := eval.render.prompt,
      model_output := out,
      parsed_output := parse_model_output out,
      expected := eval.render.expected,
      judge_result := none,
      timestamp := ts,
      latency_ms := lat,
      judge_latency_ms := none,
      token_usage :=
        if tu.input_tokens.isSome || tu.output_tokens.isSome then some tu
        else none,
      judge_token_usage := none,
      total_latency_ms := tl } := by
  simp only [run_eval, hprimary, hexp, hjm, hjudge]

/-- The network used by the C3 witness scenario: the primary model answers
"4", every other call fails. -/
def judge_fail_net : Net := fun _ m _ =>
  if m = chars "flash" then .ok (chars "4", 5, no_usage)
  else .error .emptyResponse

/-- Witness for `run_eval_judge_failure_recovered`: a concrete run whose
judge call fails with `EmptyResponse` still returns `Ok` with no judge
data. -/
theorem run_eval_judge_failure_recovered_witness :
    run_eval sample_config sample_eval judge_fail_net (chars "t0") 9 = .ok {
      model := chars "gemini:flash",
      prompt := chars "What is 2+2?",
      model_output := chars "4",
      parsed_output := parse_model_output (chars "4"),
      expected := some (chars "4"),
      judge_result := none,
      timestamp := chars "t0",
      latency_ms := 5,
      judge_latency_ms := none,
      token_usage := none,
      judge_token_usage := none,
      total_latency_ms := 9 } :=
  run_eval_judge_failure_recovered sample_config sample_eval judge_fail_net
    (chars "t0") 9 (chars "4") 5 no_usage (chars "4") (chars "gemini:pro")
    .emptyResponse rfl rfl rfl rfl

/-- An unconfigured (or unknown) provider makes `call_provider` fail with
`ProviderNotFound` for any network oracle: the lookup precedes the call. -/
theorem call_provider_not_configured
    (config : AppConfig) (net : Net) (p m pr : Str)
    (h : provider_configured config p = false) :
    call_provider config net p m pr = .error (.providerNotFound p) := by
  simp only [call_provider, provider_configured] at h ⊢
  split_ifs at h ⊢ with h1 h2 h3 h4
  · subst h1
    cases hA : config.anthropic with
    | none => rfl
    | some v => rw [hA] at h; simp at h
  · subst h2
    cases hA : config.gemini with
    | none => rfl
    | some v => rw [hA] at h; simp at h
  · subst h3
    cases hA : config.ollama with
    | none => rfl
    | some v => rw [hA] at h; simp at h
  · subst h4
    cases hA : config.openai with
    | none => rfl
    | some v => rw [hA] at h; simp at h
  · rfl

/-- A configured provider makes `call_provider` delegate to the adapter
(the network oracle). -/
theorem call_provider_configured
    (config : AppConfig) (net : Net) (p m pr : Str)
    (h : provider_configured config p = true) :
    call_provider config net p m pr = net p m pr := by
  simp only [call_provider, provider_configured] at h ⊢
  split_ifs at h ⊢ with h1 h2 h3 h4
  · subst h1
    cases hA : config.anthropic with
    | none => rw [hA] at h; simp at h
    | some v => rfl
  · subst h2
    cases hA : config.gemini with
    | none => rw [hA] at h; simp at h
    | some v => rfl
  · subst h3
    cases hA : config.ollama with
    | none => rw [hA] at h; simp at h
    | some v => rfl
  · subst h4
    cases hA : config.openai with
    | none => rw [hA] at h; simp at h
    | some v => rfl

/-- C4: `run_eval` fails with `ProviderNotFound p` exactly when the
provider `p` resolved from the primary model identifier has no
configuration entry — the conclusion holds for every network oracle, so no
network call is involved — and every other failure of the primary call
(any adapter-level error, which by the provider sources is never
`ProviderNotFound`) is returned as `ModelFailure` carrying the full model
identifier; `ProviderNotFound` is never rewrapped as `ModelFailure`. -/
theorem run_eval_provider_errors :
    (∀ (config : AppConfig) (eval : EvalConfig) (net : Net) (ts : Str) (tl : Nat),
      provider_configured config (parse_model_string eval.render.model).1 = false →
      run_eval config eval net ts tl
        = .error (.providerNotFound (parse_model_string eval.render.model).1)) ∧
    (∀ (config : AppConfig) (eval : EvalConfig) (net : Net) (ts : Str) (tl : Nat)
       (e : EvalError),
      provider_configured config (parse_model_string eval.render.model).1 = true →
      net (parse_model_string eval.render.model).1
        (parse_model_string eval.render.model).2 eval.render.prompt = .error e →
      (∀ q, e ≠ .providerNotFound q) →
      run_eval config eval net ts tl = .error (.modelFailure eval.render.model)) ∧
    (∀ (config : AppConfig) (eval : EvalConfig) (net : Net) (ts : Str) (tl : Nat)
       (q : Str),
      (∀ p m pr e, net p m pr = .error e → ∀ r, e ≠ .providerNotFound r) →
      run_eval config eval net ts tl = .error (.providerNotFound q) →
      provider_configured config q = false ∧
        q = (parse_model_string eval.render.model).1) := by
  have part1 : ∀ (config : AppConfig) (eval : EvalConfig) (net : Net)
      (ts : Str) (tl : Nat),
      provider_configured config (parse_model_string eval.render.model).1 = false →
      run_eval config eval net ts tl
        = .error (.providerNotFound (parse_model_string eval.render.model).1) := by
    intro config eval net ts tl h
    simp only [run_eval, call_provider_not_configured config net _ _ _ h]
  refine ⟨part1, ?_, ?_⟩
  · intro config eval net ts tl e hc hnet he
    simp only [run_eval, call_provider_configured config net _ _ _ hc, hnet]
  · intro config eval net ts tl q hnet h
    by_cases hc : provider_configured config
      (parse_model_string eval.render.model).1 = true
    · have hcall := call_provider_configured config net
        (parse_model_string eval.render.model).1
        (parse_model_string eval.render.model).2 eval.render.prompt hc
      simp only [run_eval, hcall] at h
      cases hres : net (parse_model_string eval.render.model).1
          (parse_model_string eval.render.model).2 eval.render.prompt with
      | ok v => rw [hres] at h; simp at h
      | error e =>
        rw [hres] at h
        cases e <;> first | exact absurd rfl (hnet _ _ _ _ hres _) | simp at h
    · have hfalse : provider_configured config
          (parse_model_string eval.render.model).1 = false := by
        simpa using hc
      have hrun := part1 config eval net ts tl hfalse
      rw [hrun] at h
      have hq : (parse_model_string eval.render.model).1 = q := by
        simpa using h
      exact ⟨hq ▸ hfalse, hq.symm⟩

/-- Witness for `run_eval_provider_errors`: with no provider configured,
the concrete request fails with `ProviderNotFound "gemini"` for an oracle
that would have answered successfully. -/
theorem run_eval_provider_errors_witness :
    run_eval empty_config sample_eval (fun _ _ _ => .ok (chars "ok", 1, no_usage))
      (chars "t0") 0 = .error (.providerNotFound (chars "gemini")) :=
  run_eval_provider_errors.1 empty_config sample_eval
    (fun _ _ _ => .ok (chars "ok", 1, no_usage)) (chars "t0") 0 rfl

/-- A word character is never whitespace. -/
theorem word_not_ws (c : Char) (h : is_word_char c = true) :
    is_ws_char c = false := by
  simp [is_word_char, is_alpha_char, is_digit_char] at h
  simp [is_ws_char]
  omega

/-- A whitespace character is never a word character. -/
theorem ws_not_word (c : Char) (h : is_ws_char c = true) :
    is_word_char c = false := by
  simp [is_ws_char] at h
  simp [is_word_char, is_alpha_char, is_digit_char]
  omega

/-- `dropWhile` never lengthens a list. -/
theorem length_dropWhile_le (p : Char → Bool) (l : Str) :
    (l.dropWhile p).length ≤ l.length := by
  induction l with
  | nil => simp
  | cons c t ih =>
    by_cases h : p c = true
    · simp only [List.dropWhile_cons_of_pos h]
      exact le_trans ih (Nat.le_succ _)
    · simp [List.dropWhile_cons_of_neg h]

/-- The anchored placeholder regex accepts exactly the shape
`\x7b\x7b ws1 key ws2 \x7d\x7d`, returning the key, the matched text and
the remainder. -/
theorem match_placeholder_shape (ws1 key ws2 after : Str)
    (hws1 : ∀ c ∈ ws1, is_ws_char c = true)
    (hws2 : ∀ c ∈ ws2, is_ws_char c = true)
    (hkey : key ≠ []) (hword : ∀ c ∈ key, is_word_char c = true) :
    match_placeholder (lbraceChar :: lbraceChar ::
        (ws1 ++ key ++ ws2 ++ [rbraceChar, rbraceChar] ++ after))
      = some (key,
          lbraceChar :: lbraceChar :: (ws1 ++ key ++ ws2 ++ [rbraceChar, rbraceChar]),
          after) := by
  obtain ⟨k0, kt, rfl⟩ : ∃ k0 kt, key = k0 :: kt := by
    cases key with
    | nil => exact absurd rfl hkey
    | cons a b => exact ⟨a, b, rfl⟩
  have hk0 : ¬ (is_ws_char k0 = true) := by
    simp [word_not_ws k0 (hword k0 (List.mem_cons_self k0 kt))]
  have hrbw : ¬ (is_word_char rbraceChar = true) := by decide
  have hrbs : ¬ (is_ws_char rbraceChar = true) := by decide
  have htail_word : (ws2 ++ rbraceChar :: rbraceChar :: after).takeWhile is_word_char
      = [] := by
    cases ws2 with
    | nil => exact List.takeWhile_cons_of_neg hrbw
    | cons w t =>
      simp only [List.cons_append]
      exact List.takeWhile_cons_of_neg
        (by simp [ws_not_word w (hws2 w (List.mem_cons_self w t))])
  have hdtail_word : (ws2 ++ rbraceChar :: rbraceChar :: after).dropWhile is_word_char
      = ws2 ++ rbraceChar :: rbraceChar :: after := by
    cases ws2 with
    | nil => exact List.dropWhile_cons_of_neg hrbw
    | cons w t =>
      simp only [List.cons_append]
      exact List.dropWhile_cons_of_neg
        (by simp [ws_not_word w (hws2 w (List.mem_cons_self w t))])
  have hcons : k0 :: (kt ++ (ws2 ++ rbraceChar :: rbraceChar :: after))
      = (k0 :: kt) ++ (ws2 ++ rbraceChar :: rbraceChar :: after) := rfl
  have ht1 : (ws1 ++ k0 :: (kt ++ (ws2 ++ rbraceChar :: rbraceChar :: after))).takeWhile is_ws_char
      = ws1 := by
    rw [List.takeWhile_append_of_pos hws1, List.takeWhile_cons_of_neg hk0,
      List.append_nil]
  have hd1 : (ws1 ++ k0 :: (kt ++ (ws2 ++ rbraceChar :: rbraceChar :: after))).dropWhile is_ws_char
      = k0 :: (kt ++ (ws2 ++ rbraceChar :: rbraceChar :: after)) := by
    rw [List.dropWhile_append_of_pos hws1, List.dropWhile_cons_of_neg hk0]
  have ht2 : (k0 :: (kt ++ (ws2 ++ rbraceChar :: rbraceChar :: after))).takeWhile is_word_char
      = k0 :: kt := by
    rw [hcons, List.takeWhile_append_of_pos hword, htail_word, List.append_nil]
  have hd2 : (k0 :: (kt ++ (ws2 ++ rbraceChar :: rbraceChar :: after))).dropWhile is_word_char
      = ws2 ++ rbraceChar :: rbraceChar :: after := by
    rw [hcons, List.dropWhile_append_of_pos hword, hdtail_word]
  have ht3 : (ws2 ++ rbraceChar :: rbraceChar :: after).takeWhile is_ws_char = ws2 := by
    rw [List.takeWhile_append_of_pos hws2, List.takeWhile_cons_of_neg hrbs,
      List.append_nil]
  have hd3 : (ws2 ++ rbraceChar :: rbraceChar :: after).dropWhile is_ws_char
      = rbraceChar :: rbraceChar :: after := by
    rw [List.dropWhile_append_of_pos hws2, List.dropWhile_cons_of_neg hrbs]
  simp only [match_placeholder, List.append_assoc, List.cons_append,
    List.nil_append]
  rw [hd1, ht1, ht2, hd2, hd3, ht3]
  simp

/-- A successful placeholder match strictly shortens the input. -/
theorem match_placeholder_after_lt (s key raw after : Str)
    (h : match_placeholder s = some (key, raw, after)) :
    after.length < s.length := by
  match s with
  | [] => simp [match_placeholder] at h
  | [c] => simp [match_placeholder] at h
  | c1 :: c2 :: rest =>
    simp only [match_placeholder] at h
    by_cases hbr : (c1 = lbraceChar && c2 = lbraceChar) = true
    · rw [if_pos hbr] at h
      have hlen : (((rest.dropWhile is_ws_char).dropWhile
          is_word_char).dropWhile is_ws_char).length ≤ rest.length :=
        le_trans (length_dropWhile_le _ _)
          (le_trans (length_dropWhile_le _ _) (length_dropWhile_le _ _))
      split at h
      · rename_i d1 d2 after0 heq1 heq2
        split at h
        · simp only [Option.some.injEq, Prod.mk.injEq] at h
          obtain ⟨-, -, hafter⟩ := h
          subst hafter
          rw [heq2] at hlen
          simp only [List.length_cons] at hlen ⊢
          omega
        · simp at h
      · simp at h
    · rw [if_neg hbr] at h
      simp at h

/-- `rt_scan` does not depend on the fuel once the fuel exceeds the input
length. -/
theorem rt_scan_fuel_irrel :
    ∀ f1 : Nat, ∀ (f2 : Nat) (t : Str) (d : Json), t.length < f1 → t.length < f2 →
      rt_scan f1 t d = rt_scan f2 t d := by
  intro f1
  induction f1 with
  | zero => intro f2 t d h1 _; omega
  | succ f ih =>
    intro f2 t d h1 h2
    cases f2 with
    | zero => omega
    | succ g =>
      cases t with
      | nil => rfl
      | cons c rest =>
        simp only [rt_scan]
        cases hm : match_placeholder (c :: rest) with
        | none =>
          simp only [List.length_cons] at h1 h2
          rw [ih g rest d (by omega) (by omega)]
        | some trip =>
          obtain ⟨key, raw, after⟩ := trip
          have hlt := match_placeholder_after_lt _ _ _ _ hm
          simp only [List.length_cons] at h1 h2 hlt
          show (match (json_get d key).bind json_as_str with
              | some v => v
              | none => raw) ++ rt_scan f after d
            = (match (json_get d key).bind json_as_str with
              | some v => v
              | none => raw) ++ rt_scan g after d
          rw [ih g after d (by omega) (by omega)]

/-- A template on which the placeholder regex never matches renders to
itself, whatever the fuel. -/
theorem rt_scan_id :
    ∀ (f : Nat) (t : Str) (d : Json), has_placeholder t = false →
      rt_scan f t d = t := by
  intro f
  induction f with
  | zero => intro t d _; rfl
  | succ g ih =>
    intro t d h
    cases t with
    | nil => rfl
    | cons c rest =>
      simp only [has_placeholder, Bool.or_eq_false_iff] at h
      obtain ⟨h1, h2⟩ := h
      have hm : match_placeholder (c :: rest) = none := by
        cases hmm : match_placeholder (c :: rest) with
        | none => rfl
        | some v => rw [hmm] at h1; simp at h1
      simp only [rt_scan, hm]
      rw [ih rest d h2]

/-- Rendering a template that starts with a placeholder: the placeholder
is replaced by the looked-up string value — or kept verbatim when the key
is absent or its value is not a string — and rendering continues after it. -/
theorem render_template_head_placeholder
    (ws1 key ws2 after : Str) (d : Json)
    (hws1 : ∀ c ∈ ws1, is_ws_char c = true)
    (hws2 : ∀ c ∈ ws2, is_ws_char c = true)
    (hkey : key ≠ []) (hword : ∀ c ∈ key, is_word_char c = true) :
    render_template (lbraceChar :: lbraceChar ::
        (ws1 ++ key ++ ws2 ++ [rbraceChar, rbraceChar] ++ after)) d
      = (match (json_get d key).bind json_as_str with
         | some v => v
         | none => lbraceChar :: lbraceChar ::
             (ws1 ++ key ++ ws2 ++ [rbraceChar, rbraceChar])) ++
        render_template after d := by
  unfold render_template
  have hm := match_placeholder_shape ws1 key ws2 after hws1 hws2 hkey hword
  simp only [rt_scan, hm]
  congr 1
  apply rt_scan_fuel_irrel
  · simp only [List.length_cons, List.length_append]
    omega
  · omega

/-- C6: `render_template` substitutes a `\x7b\x7bkey\x7d\x7d` placeholder
(optional inner whitespace, non-empty key of word characters) with the
metadata map's value exactly when the key is present and its value is a
string scalar, leaving the placeholder text verbatim otherwise, and a
template on which the placeholder regex never matches is returned
unchanged for every map. -/
theorem render_template_spec :
    (∀ (t : Str) (d : Json), has_placeholder t = false →
      render_template t d = t) ∧
    (∀ (ws1 key ws2 after : Str) (d : Json),
      (∀ c ∈ ws1, is_ws_char c = true) → (∀ c ∈ ws2, is_ws_char c = true) →
      key ≠ [] → (∀ c ∈ key, is_word_char c = true) →
      render_template (lbraceChar :: lbraceChar ::
          (ws1 ++ key ++ ws2 ++ [rbraceChar, rbraceChar] ++ after)) d
        = (match (json_get d key).bind json_as_str with
           | some v => v
           | none => lbraceChar :: lbraceChar ::
               (ws1 ++ key ++ ws2 ++ [rbraceChar, rbraceChar])) ++
          render_template after d) ∧
    render_template (chars "Hello \x7b\x7bname\x7d\x7d!")
      (.obj [(chars "name", .str (chars "World"))]) = chars "Hello World!" ∧
    render_template (chars "Hi \x7b\x7b who \x7d\x7d")
      (.obj [(chars "name", .str (chars "World"))])
      = chars "Hi \x7b\x7b who \x7d\x7d" ∧
    render_template (chars "N = \x7b\x7bn\x7d\x7d")
      (.obj [(chars "n", .num (.int 7))]) = chars "N = \x7b\x7bn\x7d\x7d" :=
  ⟨fun t d h => rt_scan_id _ t d h,
   fun ws1 key ws2 after d h1 h2 h3 h4 =>
     render_template_head_placeholder ws1 key ws2 after d h1 h2 h3 h4,
   rfl, rfl, rfl⟩

/-- Witness for `render_template_spec` at concrete inputs. -/
theorem render_template_spec_witness :
    render_template (chars "no placeholders here") (.obj [])
      = chars "no placeholders here" ∧
    render_template (lbraceChar :: lbraceChar ::
        (([] : Str) ++ chars "k" ++ ([] : Str) ++ [rbraceChar, rbraceChar] ++
          chars "!")) (.obj [(chars "k", .str (chars "v"))])
      = (match (json_get (.obj [(chars "k", .str (chars "v"))])
            (chars "k")).bind json_as_str with
         | some v => v
         | none => lbraceChar :: lbraceChar ::
             (([] : Str) ++ chars "k" ++ ([] : Str) ++
               [rbraceChar, rbraceChar])) ++
        render_template (chars "!") (.obj [(chars "k", .str (chars "v"))]) :=
  ⟨render_template_spec.1 (chars "no placeholders here") (.obj []) rfl,
   render_template_spec.2.1 [] (chars "k") [] (chars "!")
     (.obj [(chars "k", .str (chars "v"))])
     (by simp) (by simp) (by decide) (by decide)⟩

/-- C8 (modelled from the spec, see `resolve_judge_template`): when
judging runs, the store-aware runner resolves the active judge-prompt
template; a successfully loaded active template is used and its version is
recorded, while on any failure — store not configured, no active
template, or a store error — the judge prompt is built from the fixed
built-in template without aborting (the resolution is total and always
yields a prompt), with no version recorded; the recorded version is
exactly the one actually used.  The built-in template instantiated with
the template variables coincides with the runner's fixed
`create_judge_prompt` text. -/
theorem judge_template_resolution :
    (∀ (v : Int) (body expected actual : Str) (criteria : Option Str),
      judge_prompt_with_store (some (.active v body)) expected actual criteria
        = (some v, render_template body (judge_vars expected actual criteria))) ∧
    (∀ (store : Option TemplateStoreResult) (expected actual : Str)
       (criteria : Option Str),
      (store = none ∨ store = some .notFound ∨
        ∃ m, store = some (.storeError m)) →
      judge_prompt_with_store store expected actual criteria
        = (none, render_template builtin_judge_template
            (judge_vars expected actual criteria))) ∧
    render_template builtin_judge_template
        (judge_vars (chars "4") (chars "4") none)
      = create_judge_prompt (chars "4") (chars "4") none := by
  refine ⟨fun v body expected actual criteria => rfl, ?_, rfl⟩
  intro store expected actual criteria h
  rcases h with rfl | rfl | ⟨m, rfl⟩ <;> rfl

/-- Witness for `judge_template_resolution`: an unconfigured store falls
back to the built-in template with no version recorded. -/
theorem judge_template_resolution_witness :
    judge_prompt_with_store none (chars "4") (chars "4") none
      = (none, render_template builtin_judge_template
          (judge_vars (chars "4") (chars "4") none)) :=
  judge_template_resolution.2.1 none (chars "4") (chars "4") none (Or.inl rfl)
